import Mathlib

/-!
# QtAV D3D11 video decoder backend (`src/codec/video/VideoDecoderD3D11.cpp`)

A shallow embedding of the functions of `VideoDecoderD3D11.cpp` and the
properties of them that the specification states.

Conventions of the embedding.

* Machine integers are `Int`/`Nat`; a conversion `int → UINT` is written
  `toUINT` (reduction modulo `2^32`).
* A pointer or COM interface pointer is a `Ptr` (a natural number), `NULL = 0`.
* The Direct3D driver is an explicit record of response functions (`Driver`);
  every call made through a COM interface is appended to a call log, so that
  "which driver calls were issued, in which order, with which arguments" is a
  value the theorems can speak about.
* `DX_ENSURE(f, r)` (a macro of utils/DirectXHelper.h) is modelled by
  `DX_ENSURE.returns`: the enclosing function returns `r` when the call `f` fails.
-/

namespace QtAV

/-! ## Platform types and constants (Windows SDK / FFmpeg headers) -/

/-- A pointer value; `NULL` is `0`. -/
abbrev Ptr := Nat

/-- The null pointer. -/
abbrev NULL : Ptr := 0

/-- `HRESULT` (winerror.h): a signed 32-bit status code. -/
abbrev HRESULT := Int

/-- `FAILED(hr)` (winerror.h): `((HRESULT)(hr)) < 0`. -/
def FAILED (hr : HRESULT) : Bool := decide (hr < 0)

/-- Modelled from the spec: the macro `DX_ENSURE(f, r)` (utils/DirectXHelper.h, which is
not among the sources) makes the enclosing function return `r` when the driver
rejects the call `f` ("fails if ... creation fails", "rejected by driver (fatal to
the current create-decoder call)"), and lets it go on otherwise. A call is
rejected when its `HRESULT` is a failure code. `DX_ENSURE.returns hr` tells
whether the macro returns, `hr` being the value of `f`. -/
abbrev DX_ENSURE.returns (hr : HRESULT) : Bool := FAILED hr

/-- `S_OK` (winerror.h). -/
def S_OK : HRESULT := 0

/-- `E_FAIL` (winerror.h), `0x80004005` read as a signed 32-bit value. -/
def E_FAIL : HRESULT := -2147467259

/-- Windows `BOOL`: an `int`, true when non-zero. -/
abbrev BOOL := Int

/-- `FALSE` (minwindef.h). -/
abbrev FALSE : BOOL := 0

/-- `TRUE` (minwindef.h). -/
abbrev TRUE : BOOL := 1

/-- `GUID` (guiddef.h), a 128-bit identifier, kept as its numeric value. -/
abbrev GUID := Nat

/-- `AVCodecID` (libavcodec), an enumeration kept as its integer value. -/
abbrev AVCodecID := Int

/-- `DXGI_FORMAT` (dxgiformat.h), an enumeration kept as its numeric value. -/
abbrev DXGI_FORMAT := Nat

/-- `DXGI_FORMAT_UNKNOWN = 0` (dxgiformat.h). -/
def DXGI_FORMAT_UNKNOWN : DXGI_FORMAT := 0

/-- `DXGI_FORMAT_NV12 = 103` (dxgiformat.h). -/
def DXGI_FORMAT_NV12 : DXGI_FORMAT := 103

/-- `DXGI_FORMAT_P010 = 104` (dxgiformat.h). -/
def DXGI_FORMAT_P010 : DXGI_FORMAT := 104

/-- `DXGI_FORMAT_P016 = 105` (dxgiformat.h). -/
def DXGI_FORMAT_P016 : DXGI_FORMAT := 105

/-- `MAKEFOURCC(ch0, ch1, ch2, ch3)` (mmsyscom.h):
`ch0 | (ch1 << 8) | (ch2 << 16) | (ch3 << 24)`, stored in an `int` field. -/
def MAKEFOURCC (ch0 ch1 ch2 ch3 : Char) : Int :=
  Int.ofNat (ch0.toNat ||| (ch1.toNat <<< 8) ||| (ch2.toNat <<< 16) ||| (ch3.toNat <<< 24))

/-- Conversion of an `int` to `UINT` (32-bit unsigned): reduction modulo `2^32`. -/
def toUINT (x : Int) : Nat := (x % 4294967296).toNat

/-! ## Format table (lines 41-57) -/

/-- `struct dxgi_fcc { int fourcc; DXGI_FORMAT dxgi; }`. -/
structure dxgi_fcc where
  fourcc : Int
  dxgi : DXGI_FORMAT
deriving DecidableEq, Repr

/-- The table `dxgi_formats[]` (lines 44-48). -/
def dxgi_formats : List dxgi_fcc :=
  [ ⟨MAKEFOURCC 'N' 'V' '1' '2', DXGI_FORMAT_NV12⟩,
    ⟨MAKEFOURCC 'P' '0' '1' '0', DXGI_FORMAT_P010⟩,
    ⟨MAKEFOURCC 'P' '0' '1' '6', DXGI_FORMAT_P016⟩ ]

/-- The loop of `fourccToDXGI` (lines 52-55) over the entries not yet visited:
the first entry whose `fourcc` equals the argument decides; running off the end
of the table gives `DXGI_FORMAT_UNKNOWN` (line 56). -/
def fourccToDXGI.loop (fourcc : Int) : List dxgi_fcc → DXGI_FORMAT
  | [] => DXGI_FORMAT_UNKNOWN
  | f :: rest => if f.fourcc = fourcc then f.dxgi else fourccToDXGI.loop fourcc rest

/-- `DXGI_FORMAT fourccToDXGI(int fourcc)` (lines 50-57). -/
def fourccToDXGI (fourcc : Int) : DXGI_FORMAT :=
  fourccToDXGI.loop fourcc dxgi_formats

/-! ## Direct3D 11 descriptors and constants (d3d11.h) -/

/-- `D3D11_USAGE_DEFAULT = 0`. -/
def D3D11_USAGE_DEFAULT : Nat := 0

/-- `D3D11_USAGE_STAGING = 3`. -/
def D3D11_USAGE_STAGING : Nat := 3

/-- `D3D11_BIND_DECODER = 0x200`. -/
def D3D11_BIND_DECODER : Nat := 0x200

/-- `D3D11_CPU_ACCESS_READ = 0x20000`. -/
def D3D11_CPU_ACCESS_READ : Nat := 0x20000

/-- `D3D11_VDOV_DIMENSION_TEXTURE2D = 1`. -/
def D3D11_VDOV_DIMENSION_TEXTURE2D : Nat := 1

/-- `D3D11_MAP_READ = 1`. -/
def D3D11_MAP_READ : Nat := 1

/-- `D3D11_TEXTURE2D_DESC`; `SampleDesc` is flattened into its two members. -/
structure D3D11_TEXTURE2D_DESC where
  Width : Nat
  Height : Nat
  MipLevels : Nat
  ArraySize : Nat
  Format : DXGI_FORMAT
  SampleDesc_Count : Nat
  SampleDesc_Quality : Nat
  Usage : Nat
  BindFlags : Nat
  CPUAccessFlags : Nat
  MiscFlags : Nat
deriving DecidableEq, Repr

/-- `ZeroMemory(&texDesc, sizeof(texDesc))` (line 270). -/
def D3D11_TEXTURE2D_DESC.zero : D3D11_TEXTURE2D_DESC :=
  { Width := 0, Height := 0, MipLevels := 0, ArraySize := 0, Format := 0,
    SampleDesc_Count := 0, SampleDesc_Quality := 0, Usage := 0, BindFlags := 0,
    CPUAccessFlags := 0, MiscFlags := 0 }

/-- `D3D11_VIDEO_DECODER_OUTPUT_VIEW_DESC`; the union member `Texture2D.ArraySlice`
is flattened. -/
structure D3D11_VIDEO_DECODER_OUTPUT_VIEW_DESC where
  DecodeProfile : GUID
  ViewDimension : Nat
  Texture2D_ArraySlice : Nat
deriving DecidableEq, Repr

/-- `D3D11_VIDEO_DECODER_DESC`. -/
structure D3D11_VIDEO_DECODER_DESC where
  Guid : GUID
  SampleWidth : Nat
  SampleHeight : Nat
  OutputFormat : DXGI_FORMAT
deriving DecidableEq, Repr

/-- `D3D11_VIDEO_DECODER_CONFIG`: this file only stores such records and hands them
on (to `SelectConfig` and to the driver), so a record is kept as a code for
its contents; `0` is the all-zero record. -/
abbrev D3D11_VIDEO_DECODER_CONFIG := Nat

/-- `D3D11_MAPPED_SUBRESOURCE`, the members `frame()` reads. -/
structure D3D11_MAPPED_SUBRESOURCE where
  pData : Ptr
  RowPitch : Nat
deriving DecidableEq, Repr

/-- Conversion of a `UINT` to `int`, as in `(int)mapped.RowPitch` (line 181). -/
def toInt32 (x : Nat) : Int :=
  if x % 4294967296 < 2147483648 then Int.ofNat (x % 4294967296)
  else Int.ofNat (x % 4294967296) - 4294967296

/-! ## The driver and the log of calls made to it -/

/-- The responses of the Direct3D 11 runtime and driver to the calls this file
makes. A creating call answers with its `HRESULT` and with what it stored
through its out-pointer (`none`: the out-pointer was not written). The getters
answer with the value they store. Within one run of a function of this file no
call is repeated with the same arguments, so a response function per argument is
as general as a sequence of responses. A creating call that succeeds stores a
pointer to a live object (the COM contract); for a response that breaks this
contract the embedding goes on with the pointer it was given and the answers the
record has for it. -/
structure Driver where
  CreateTexture2D : D3D11_TEXTURE2D_DESC → HRESULT × Option Ptr
  Texture2D_GetDesc : Ptr → D3D11_TEXTURE2D_DESC
  CreateVideoDecoderOutputView :
    Ptr → D3D11_VIDEO_DECODER_OUTPUT_VIEW_DESC → HRESULT × Option Ptr
  GetVideoDecoderConfigCount : D3D11_VIDEO_DECODER_DESC → HRESULT × Nat
  GetVideoDecoderConfig :
    D3D11_VIDEO_DECODER_DESC → Nat → HRESULT × D3D11_VIDEO_DECODER_CONFIG
  CreateVideoDecoder :
    D3D11_VIDEO_DECODER_DESC → D3D11_VIDEO_DECODER_CONFIG → HRESULT × Option Ptr
  CheckVideoDecoderFormat : GUID → DXGI_FORMAT → HRESULT × Option BOOL
  OutputView_GetResource : Ptr → Ptr
  OutputView_GetDesc : Ptr → D3D11_VIDEO_DECODER_OUTPUT_VIEW_DESC
  Map : Ptr → D3D11_MAPPED_SUBRESOURCE

/-- One call made through a COM interface, with its arguments. -/
inductive DriverCall where
  | CreateTexture2D (desc : D3D11_TEXTURE2D_DESC)
  | Texture2D_GetDesc (tex : Ptr)
  | CreateVideoDecoderOutputView (tex : Ptr) (desc : D3D11_VIDEO_DECODER_OUTPUT_VIEW_DESC)
  | GetVideoDecoderConfigCount (desc : D3D11_VIDEO_DECODER_DESC)
  | GetVideoDecoderConfig (desc : D3D11_VIDEO_DECODER_DESC) (i : Nat)
  | CreateVideoDecoder (desc : D3D11_VIDEO_DECODER_DESC) (cfg : D3D11_VIDEO_DECODER_CONFIG)
  | CheckVideoDecoderFormat (guid : GUID) (format : DXGI_FORMAT)
  | GetResource (view : Ptr)
  | OutputView_GetDesc (view : Ptr)
  | CopySubresourceRegion (dst : Ptr) (dstSubresource dstX dstY dstZ : Nat)
      (src : Ptr) (srcSubresource : Nat) (srcBox : Ptr)
  | Map (resource : Ptr) (subresource mapType mapFlags : Nat)
  | Unmap (resource : Ptr) (subresource : Nat)
  | Release (p : Ptr)
deriving DecidableEq, Repr

/-! ## Decoder state -/

/-- `AVFrame` (libavutil), the members `frame()` reads. The member that the
source calls `opaque` is named `opaqueRef` here. -/
structure AVFrame where
  opaqueRef : Ptr
  data : Nat → Ptr
  width : Int
  height : Int

/-- `AVD3D11VAContext` (libavcodec/d3d11va.h). The two members that point into
the decoder object (`cfg`, `surface`) are kept as what they point to. -/
structure AVD3D11VAContext where
  decoder : Ptr
  video_context : Ptr
  cfg : Option D3D11_VIDEO_DECODER_CONFIG
  surface_count : Nat
  surface : List Ptr
  workaround : Nat
  report_id : Nat
deriving DecidableEq, Repr

/-- `AVCodecContext` (libavcodec), the member `setupAVVAContext` writes;
`hwaccel_context` is kept as the context it points to (`none`: null). -/
structure AVCodecContext where
  hwaccel_context : Option AVD3D11VAContext
deriving DecidableEq, Repr

/-- `FF_DXVA2_WORKAROUND_INTEL_CLEARVIDEO = 2` (libavcodec/d3d11va.h, which line 30
includes; the header defines the constant, so the `#ifdef` of line 347 holds). -/
def FF_DXVA2_WORKAROUND_INTEL_CLEARVIDEO : Nat := 2

/-- `struct d3d11_surface_t` (lines 85-94): the surface handle handed to the
external decoder; its own member is the decode-output view. -/
structure d3d11_surface_t where
  view : Ptr
deriving DecidableEq, Repr

/-- `d3d11_surface_t::setSurface` (lines 87-89). -/
def d3d11_surface_t.setSurface (_self : d3d11_surface_t) (s : Ptr) : d3d11_surface_t :=
  { view := s }

/-- `d3d11_surface_t::getSurface` (line 90). -/
def d3d11_surface_t.getSurface (self : d3d11_surface_t) : Ptr := self.view

/-- The constructor `d3d11_surface_t()` (line 86): `view(0)`. -/
def d3d11_surface_t.new : d3d11_surface_t := { view := NULL }

/-- The members of `VideoDecoderD3D11Private` (lines 131-143) together with the
members it inherits (from `VideoDecoderD3DPrivate` and its bases) that the
functions of this file read: `codec_ctx`, `frame`, `width`, `height`,
`codec_guid`, `format_fcc`, `hw_surfaces`. -/
structure VideoDecoderD3D11Private where
  codec_ctx : Ptr
  frame : AVFrame
  width : Int
  height : Int
  codec_guid : GUID
  format_fcc : Int
  hw_surfaces : List Ptr
  d3ddev : Ptr
  d3dviddev : Ptr
  d3ddec : Ptr
  d3dvidctx : Ptr
  cfg : D3D11_VIDEO_DECODER_CONFIG
  hw : AVD3D11VAContext
  d3dctx : Ptr
  texture_cpu : Ptr

/-! ## `frame()` (lines 146-186) -/

/-- What `frame()` returns: the empty frame `VideoFrame()`, or the frame that
`copyToFrame(format, tex_desc.Height, src, pitch, false)` builds (line 185), kept
as the arguments of that call: the fourcc whose `pixelFormatFromFourcc` is
`format`, the surface height, `src[0]` and `pitch[0]`. -/
inductive VideoFrame where
  | invalid
  | copyToFrame (format_fcc : Int) (surface_h : Nat) (src0 : Ptr) (pitch0 : Int)
deriving DecidableEq, Repr

/-- How a run of `frame()` ends: it returns a frame, or it calls a member
function through a null interface pointer (a fatal access violation). -/
inductive FrameOutcome where
  | returned (f : VideoFrame)
  | nullDereference
deriving DecidableEq, Repr

/-- `VideoFrame VideoDecoderD3D11::frame()` (lines 146-186), with the calls it
issues. The decoder is open when `frame()` runs, so `d.d3dctx` is a live
interface; `surface` comes from the picture payload `data[3]` and is the one
pointer the source itself tests against null. -/
def frame (drv : Driver) (d : VideoDecoderD3D11Private) : FrameOutcome × List DriverCall :=
  -- line 150
  if d.frame.opaqueRef = NULL ∨ d.frame.data 0 = NULL then
    (.returned .invalid, [])
  -- line 152
  else if d.frame.width ≤ 0 ∨ d.frame.height ≤ 0 ∨ d.codec_ctx = NULL then
    (.returned .invalid, [])
  else
    -- line 155
    let surface : Ptr := d.frame.data 3
    -- line 157: `surface->GetResource(...)` is a virtual call through `surface`
    if surface = NULL then
      (.nullDereference, [])
    else
      let texture : Ptr := drv.OutputView_GetResource surface
      let log := [DriverCall.GetResource surface]
      -- line 158
      if surface = NULL ∨ texture = NULL then
        (.returned .invalid, log)
      else
        -- lines 162-166
        let tex_desc := drv.Texture2D_GetDesc texture
        let view_desc := drv.OutputView_GetDesc surface
        -- lines 167-179; the destructor of `sm` unmaps when the function returns
        let mapped := drv.Map d.texture_cpu
        let log := log ++
          [ DriverCall.Texture2D_GetDesc texture,
            DriverCall.OutputView_GetDesc surface,
            DriverCall.CopySubresourceRegion d.texture_cpu 0 0 0 0
              texture view_desc.Texture2D_ArraySlice NULL,
            DriverCall.Map d.texture_cpu 0 D3D11_MAP_READ 0,
            DriverCall.Unmap d.texture_cpu 0 ]
        -- lines 181-185
        (.returned (.copyToFrame d.format_fcc tex_desc.Height mapped.pData
            (toInt32 mapped.RowPitch)), log)

/-! ## `destroyDevice` (lines 236-242) -/

/-- Modelled from the spec: `SafeRelease` (a template of utils/DirectXHelper.h, which
is not among the sources) releases the interface a field holds and clears the
field; on a null field it does nothing ("safe to call when some/all are null
(no-op per null field)", "safe on an already-null handle"). The result is the
new value of the field and the calls made. -/
def SafeRelease (p : Ptr) : Ptr × List DriverCall :=
  if p = NULL then (p, []) else (NULL, [DriverCall.Release p])

/-- `void VideoDecoderD3D11Private::destroyDevice()` (lines 236-242), with the
calls it issues. -/
def destroyDevice (d : VideoDecoderD3D11Private) :
    VideoDecoderD3D11Private × List DriverCall :=
  let r1 := SafeRelease d.d3dviddev
  let d := { d with d3dviddev := r1.1 }
  let r2 := SafeRelease d.d3dvidctx
  let d := { d with d3dvidctx := r2.1 }
  let r3 := SafeRelease d.d3dctx
  let d := { d with d3dctx := r3.1 }
  let r4 := SafeRelease d.d3ddev
  let d := { d with d3ddev := r4.1 }
  (d, r1.2 ++ r2.2 ++ r3.2 ++ r4.2)

/-! ## `fourccFor` (lines 244-254) -/

/-- The loop of `fourccFor` (lines 247-252) over the table entries not yet
visited; `is_supported` is the local variable of line 246, which the driver
overwrites when it stores through the out-pointer. `DX_ENSURE(..., 0)` returns
`0` when the call fails. -/
def fourccFor.loop (drv : Driver) (guid : GUID) :
    BOOL → List dxgi_fcc → List DriverCall → Int × List DriverCall
  | _, [], log => (0, log)
  | is_supported, f :: rest, log =>
    let r := drv.CheckVideoDecoderFormat guid f.dxgi
    let log := log ++ [DriverCall.CheckVideoDecoderFormat guid f.dxgi]
    if DX_ENSURE.returns r.1 then (0, log)
    else
      let is_supported := r.2.getD is_supported
      if is_supported ≠ 0 then (f.fourcc, log)
      else fourccFor.loop drv guid is_supported rest log

/-- `int VideoDecoderD3D11Private::fourccFor(const GUID *guid) const`
(lines 244-254), with the calls it issues. -/
def fourccFor (drv : Driver) (guid : GUID) : Int × List DriverCall :=
  fourccFor.loop drv guid FALSE dxgi_formats []

/-! ## `setupAVVAContext` (lines 342-359) -/

/-- `void VideoDecoderD3D11Private::setupAVVAContext(AVCodecContext *avctx)`
(lines 342-359). `isIntelClearVideo` (VideoDecoderD3D.cpp) is a parameter.
`avctx->hwaccel_context` points to `hw`, so it shows `hw` as the function
leaves it. -/
def setupAVVAContext (isIntelClearVideo : GUID → Bool) (d : VideoDecoderD3D11Private)
    (avctx : AVCodecContext) : VideoDecoderD3D11Private × AVCodecContext :=
  let hw := d.hw
  -- lines 346-353
  let hw : AVD3D11VAContext :=
    if isIntelClearVideo d.codec_guid then
      { hw with workaround := hw.workaround ||| FF_DXVA2_WORKAROUND_INTEL_CLEARVIDEO }
    else
      { hw with workaround := 0 }
  -- lines 354-358
  let hw := { hw with video_context := d.d3dvidctx }
  let hw := { hw with decoder := d.d3ddec }
  let hw := { hw with cfg := some d.cfg }
  let hw := { hw with surface_count := d.hw_surfaces.length }
  let hw := { hw with surface := d.hw_surfaces }
  ({ d with hw := hw }, { avctx with hwaccel_context := some hw })

/-! ## `createDecoder` (lines 266-330) -/

/-- Lines 269-280: the description of the pool texture. `aligned`
(VideoDecoderD3D.cpp) is a parameter; `format_fcc` is the member of that name. -/
def createDecoder.poolDesc (aligned : Int → Int) (format_fcc : Int)
    (w h : Int) (nb_surfaces : Nat) : D3D11_TEXTURE2D_DESC :=
  let texDesc := D3D11_TEXTURE2D_DESC.zero
  let texDesc := { texDesc with Width := toUINT (aligned w) }
  let texDesc := { texDesc with Height := toUINT (aligned h) }
  let texDesc := { texDesc with MipLevels := 1 }
  let texDesc := { texDesc with Format := fourccToDXGI format_fcc }
  let texDesc := { texDesc with SampleDesc_Count := 1 }
  let texDesc := { texDesc with MiscFlags := 0 }
  let texDesc := { texDesc with ArraySize := nb_surfaces }
  let texDesc := { texDesc with Usage := D3D11_USAGE_DEFAULT }
  let texDesc := { texDesc with BindFlags := D3D11_BIND_DECODER }
  { texDesc with CPUAccessFlags := 0 }

/-- Lines 287-292: the description of the staging texture, made from the
description `tex->GetDesc` gave of the pool texture (line 286). -/
def createDecoder.stagingDesc (texDesc : D3D11_TEXTURE2D_DESC) : D3D11_TEXTURE2D_DESC :=
  let texDesc := { texDesc with MipLevels := 1 }
  let texDesc := { texDesc with MiscFlags := 0 }
  let texDesc := { texDesc with ArraySize := 1 }
  let texDesc := { texDesc with Usage := D3D11_USAGE_STAGING }
  let texDesc := { texDesc with CPUAccessFlags := D3D11_CPU_ACCESS_READ }
  { texDesc with BindFlags := 0 }

/-- Lines 295-298 and 301: the view description for array slice `i`; `codec_guid`
is the member of that name. -/
def createDecoder.viewDesc (codec_guid : GUID) (i : Nat) :
    D3D11_VIDEO_DECODER_OUTPUT_VIEW_DESC :=
  { DecodeProfile := codec_guid
    ViewDimension := D3D11_VDOV_DIMENSION_TEXTURE2D
    Texture2D_ArraySlice := i }

/-- Lines 310-315: the decoder description. -/
def createDecoder.decoderDesc (codec_guid : GUID) (format_fcc : Int) (w h : Int) :
    D3D11_VIDEO_DECODER_DESC :=
  { Guid := codec_guid
    SampleWidth := toUINT w
    SampleHeight := toUINT h
    OutputFormat := fourccToDXGI format_fcc }

/-- The loop of lines 300-307, from index `i` with `remaining = nb_surfaces - i`
iterations to go. Gives whether every view was created, the surfaces array and
the log. -/
def createDecoder.viewLoop (drv : Driver) (codec_guid : GUID) (tex : Ptr) :
    (remaining : Nat) → (i : Nat) → List (Option d3d11_surface_t) → List DriverCall →
      Bool × List (Option d3d11_surface_t) × List DriverCall
  | 0, _, surf, log => (true, surf, log)
  | remaining + 1, i, surf, log =>
    let viewDesc := createDecoder.viewDesc codec_guid i
    -- line 302: `view = NULL`
    let r := drv.CreateVideoDecoderOutputView tex viewDesc
    let log := log ++ [DriverCall.CreateVideoDecoderOutputView tex viewDesc]
    if DX_ENSURE.returns r.1 then (false, surf, log)
    else
      let view : Ptr := r.2.getD NULL
      let s := d3d11_surface_t.new.setSurface view
      createDecoder.viewLoop drv codec_guid tex remaining (i + 1) (surf.set i (some s)) log

/-- The loop of lines 322-324, from index `i` with `remaining = cfg_count - i`
iterations to go. Gives the filled list (`none` when a query failed) and
the log. -/
def createDecoder.configLoop (drv : Driver) (decoderDesc : D3D11_VIDEO_DECODER_DESC) :
    (remaining : Nat) → (i : Nat) → List D3D11_VIDEO_DECODER_CONFIG → List DriverCall →
      Option (List D3D11_VIDEO_DECODER_CONFIG) × List DriverCall
  | 0, _, cfg_list, log => (some cfg_list, log)
  | remaining + 1, i, cfg_list, log =>
    let r := drv.GetVideoDecoderConfig decoderDesc i
    let log := log ++ [DriverCall.GetVideoDecoderConfig decoderDesc i]
    if DX_ENSURE.returns r.1 then (none, log)
    else createDecoder.configLoop drv decoderDesc remaining (i + 1) (cfg_list.set i r.2) log

/-- What a run of `createDecoder` leaves: the value returned, the decoder
object, the caller's `surf` (passed by reference) and the calls issued. -/
structure CreateDecoderResult where
  ret : Bool
  d : VideoDecoderD3D11Private
  surf : List (Option d3d11_surface_t)
  log : List DriverCall

/-- `bool VideoDecoderD3D11Private::createDecoder(AVCodecID codec_id, int w, int h,
QVector<va_surface_t*> &surf)` (lines 266-330). An entry of `surf` is `none` for a
null pointer and `some s` for a pointer to the surface `s`. `aligned` and
`SelectConfig` (VideoDecoderD3D.cpp) are parameters; `SelectConfig codec_id cfg_list
cfg_count cfg` gives the score it returns and the value it leaves in `cfg`.
`createDecoder` runs on a created device, so `d3ddev` and `d3dviddev` are live. -/
def createDecoder (drv : Driver) (aligned : Int → Int)
    (SelectConfig : AVCodecID → List D3D11_VIDEO_DECODER_CONFIG → Nat →
      D3D11_VIDEO_DECODER_CONFIG → Int × D3D11_VIDEO_DECODER_CONFIG)
    (d : VideoDecoderD3D11Private) (codec_id : AVCodecID) (w h : Int)
    (surf : List (Option d3d11_surface_t)) : CreateDecoderResult :=
  -- line 268
  let nb_surfaces := surf.length
  -- lines 269-283
  let texDesc := createDecoder.poolDesc aligned d.format_fcc w h nb_surfaces
  let r := drv.CreateTexture2D texDesc
  let log := [DriverCall.CreateTexture2D texDesc]
  if DX_ENSURE.returns r.1 then ⟨false, d, surf, log⟩
  else
    let tex : Ptr := r.2.getD NULL
    -- lines 286-293
    let texDesc := drv.Texture2D_GetDesc tex
    let log := log ++ [DriverCall.Texture2D_GetDesc tex]
    let texDesc := createDecoder.stagingDesc texDesc
    let r := drv.CreateTexture2D texDesc
    let log := log ++ [DriverCall.CreateTexture2D texDesc]
    let d := { d with texture_cpu := r.2.getD d.texture_cpu }
    if DX_ENSURE.returns r.1 then ⟨false, d, surf, log⟩
    else
      -- lines 295-307
      match createDecoder.viewLoop drv d.codec_guid tex nb_surfaces 0 surf log with
      | (false, surf, log) => ⟨false, d, surf, log⟩
      | (true, surf, log) =>
        -- lines 310-318
        let decoderDesc := createDecoder.decoderDesc d.codec_guid d.format_fcc w h
        let r := drv.GetVideoDecoderConfigCount decoderDesc
        let log := log ++ [DriverCall.GetVideoDecoderConfigCount decoderDesc]
        if DX_ENSURE.returns r.1 then ⟨false, d, surf, log⟩
        else
          let cfg_count := r.2
          -- lines 321-324
          match createDecoder.configLoop drv decoderDesc cfg_count 0
              (List.replicate cfg_count 0) log with
          | (none, log) => ⟨false, d, surf, log⟩
          | (some cfg_list, log) =>
            -- lines 325-326
            let sel := SelectConfig codec_id cfg_list cfg_count d.cfg
            let d := { d with cfg := sel.2 }
            if sel.1 ≤ 0 then ⟨false, d, surf, log⟩
            else
              -- line 328
              let r := drv.CreateVideoDecoder decoderDesc d.cfg
              let log := log ++ [DriverCall.CreateVideoDecoder decoderDesc d.cfg]
              let d := { d with d3ddec := r.2.getD d.d3ddec }
              if DX_ENSURE.returns r.1 then ⟨false, d, surf, log⟩
              else ⟨true, d, surf, log⟩

/-! ## Reading the call log -/

/-- The description a `CreateTexture2D` call asks for; `none` for another call. -/
def DriverCall.textureRequest : DriverCall → Option D3D11_TEXTURE2D_DESC
  | .CreateTexture2D desc => some desc
  | _ => none

/-- The description and configuration a `CreateVideoDecoder` call asks for; `none`
for another call. -/
def DriverCall.decoderRequest :
    DriverCall → Option (D3D11_VIDEO_DECODER_DESC × D3D11_VIDEO_DECODER_CONFIG)
  | .CreateVideoDecoder desc cfg => some (desc, cfg)
  | _ => none

/-- Modelled from the spec: `aligned` (VideoDecoderD3D.cpp, not among the sources)
for a platform whose decode alignment is 16: "rounded up to the platform
alignment (e.g., to a multiple of 16: 1920×1088)". -/
def aligned16 (x : Int) : Int := (x + 15) / 16 * 16

/-- Modelled from the spec: what the spec says of `SelectConfig` (VideoDecoderD3D.cpp,
not among the sources) on an empty candidate list: "fails if the driver
reports zero", "if the candidate list is empty, decoder creation fails", that is,
it reports no selection (a score that is not positive). -/
def SelectConfigRejectsEmpty
    (SelectConfig : AVCodecID → List D3D11_VIDEO_DECODER_CONFIG → Nat →
      D3D11_VIDEO_DECODER_CONFIG → Int × D3D11_VIDEO_DECODER_CONFIG) : Prop :=
  ∀ codec_id cfg, (SelectConfig codec_id [] 0 cfg).1 ≤ 0

/-! ## Reading the driver's answers to the format-support check -/

/-- The format-support check for `(guid, format)` fails: its `HRESULT` is a failure
code. -/
def Driver.checkFails (drv : Driver) (guid : GUID) (format : DXGI_FORMAT) : Bool :=
  FAILED (drv.CheckVideoDecoderFormat guid format).1

/-- The format-support check for `(guid, format)` reports "supported": it stores a
non-zero `BOOL` through its out-pointer. -/
def Driver.reportsSupported (drv : Driver) (guid : GUID) (format : DXGI_FORMAT) : Bool :=
  (drv.CheckVideoDecoderFormat guid format).2.getD FALSE != 0

/-! ## Concrete inputs used by the witnesses and counterexamples -/

/-- A driver that accepts every request: the pool texture is object `100`, the
staging texture object `200`, the view of slice `i` object `1000 + i`, the
session object `300`; it lists two configurations (`7` and `8`) and supports
NV12 only. -/
def sampleDriver : Driver where
  CreateTexture2D := fun desc =>
    (S_OK, some (if desc.Usage = D3D11_USAGE_STAGING then 200 else 100))
  Texture2D_GetDesc := fun _ =>
    { Width := 1920, Height := 1088, MipLevels := 1, ArraySize := 17,
      Format := DXGI_FORMAT_NV12, SampleDesc_Count := 1, SampleDesc_Quality := 0,
      Usage := D3D11_USAGE_DEFAULT, BindFlags := D3D11_BIND_DECODER,
      CPUAccessFlags := 0, MiscFlags := 0 }
  CreateVideoDecoderOutputView := fun _ desc => (S_OK, some (1000 + desc.Texture2D_ArraySlice))
  GetVideoDecoderConfigCount := fun _ => (S_OK, 2)
  GetVideoDecoderConfig := fun _ i => (S_OK, 7 + i)
  CreateVideoDecoder := fun _ _ => (S_OK, some 300)
  CheckVideoDecoderFormat := fun _ format =>
    (S_OK, some (if format = DXGI_FORMAT_NV12 then TRUE else FALSE))
  OutputView_GetResource := fun view => if 1000 ≤ view then 100 else NULL
  OutputView_GetDesc := fun view =>
    { DecodeProfile := 0, ViewDimension := D3D11_VDOV_DIMENSION_TEXTURE2D,
      Texture2D_ArraySlice := view - 1000 }
  Map := fun _ => { pData := 5000, RowPitch := 2048 }

/-- A selection policy for the examples: the first candidate, with score `1`;
no selection (score `0`) on an empty list. -/
def sampleSelectConfig : AVCodecID → List D3D11_VIDEO_DECODER_CONFIG → Nat →
    D3D11_VIDEO_DECODER_CONFIG → Int × D3D11_VIDEO_DECODER_CONFIG
  | _, [], _, cfg => (0, cfg)
  | _, c :: _, _, _ => (1, c)

/-- A decoded picture of 1920x1080 whose payload carries the view `1003`. -/
def samplePicture : AVFrame :=
  { opaqueRef := 1, data := fun i => if i = 0 then 1003 else if i = 3 then 1003 else NULL,
    width := 1920, height := 1080 }

/-- An open decoder with no session yet: device handles live, `d3ddec`
and `texture_cpu` null, NV12 negotiated. -/
def sampleDecoder : VideoDecoderD3D11Private :=
  { codec_ctx := 50, frame := samplePicture, width := 1920, height := 1080,
    codec_guid := 0, format_fcc := MAKEFOURCC 'N' 'V' '1' '2', hw_surfaces := [],
    d3ddev := 10, d3dviddev := 11, d3ddec := NULL, d3dvidctx := 12, cfg := 0,
    hw := { decoder := NULL, video_context := NULL, cfg := none, surface_count := 0,
            surface := [], workaround := 0, report_id := 0 },
    d3dctx := 13, texture_cpu := NULL }

/-- The sample decoder with a picture whose `data[0]` is null. -/
def decoderWithoutData : VideoDecoderD3D11Private :=
  { sampleDecoder with frame := { samplePicture with data := fun _ => NULL } }

/-- The sample decoder with a picture that passes the checks of lines 150-153
and whose `data[3]` (the decode-output view) is null. -/
def decoderWithNullView : VideoDecoderD3D11Private :=
  { sampleDecoder with
    frame := { samplePicture with data := fun i => if i = 0 then 1003 else NULL } }

/-- A driver whose format-support check fails for NV12 (`E_FAIL`, nothing stored)
and reports P010 as supported. -/
def failingFirstCheckDriver : Driver :=
  { sampleDriver with
    CheckVideoDecoderFormat := fun _ format =>
      if format = DXGI_FORMAT_NV12 then (E_FAIL, none)
      else if format = DXGI_FORMAT_P010 then (S_OK, some TRUE)
      else (S_OK, some FALSE) }

/-- A driver that creates the view of slice `0` (object `1000`) and rejects every
other view request. -/
def failingViewDriver : Driver :=
  { sampleDriver with
    CreateVideoDecoderOutputView := fun _ desc =>
      if desc.Texture2D_ArraySlice = 0 then (S_OK, some 1000) else (E_FAIL, none) }

/-- A driver that reports zero decode configurations. -/
def zeroConfigDriver : Driver :=
  { sampleDriver with GetVideoDecoderConfigCount := fun _ => (S_OK, 0) }

/-! ## Theorems -/

/-- C1. `fourccToDXGI` is a total function that gives NV12 for 'NV12', P010 for
'P010', P016 for 'P016' and `DXGI_FORMAT_UNKNOWN` for every other code; the three
codes of the table are pairwise different, so no code has two formats. -/
theorem fourccToDXGI_table (fourcc : Int) :
    fourccToDXGI (MAKEFOURCC 'N' 'V' '1' '2') = DXGI_FORMAT_NV12 ∧
    fourccToDXGI (MAKEFOURCC 'P' '0' '1' '0') = DXGI_FORMAT_P010 ∧
    fourccToDXGI (MAKEFOURCC 'P' '0' '1' '6') = DXGI_FORMAT_P016 ∧
    fourccToDXGI fourcc =
      (if fourcc = MAKEFOURCC 'N' 'V' '1' '2' then DXGI_FORMAT_NV12
       else if fourcc = MAKEFOURCC 'P' '0' '1' '0' then DXGI_FORMAT_P010
       else if fourcc = MAKEFOURCC 'P' '0' '1' '6' then DXGI_FORMAT_P016
       else DXGI_FORMAT_UNKNOWN) ∧
    (dxgi_formats.map dxgi_fcc.fourcc).Nodup := by
  refine ⟨by decide, by decide, by decide, ?_, by decide⟩
  simp only [fourccToDXGI, dxgi_formats, fourccToDXGI.loop]
  by_cases h1 : fourcc = MAKEFOURCC 'N' 'V' '1' '2'
  · simp [h1]
  · by_cases h2 : fourcc = MAKEFOURCC 'P' '0' '1' '0'
    · subst h2; simp; decide
    · by_cases h3 : fourcc = MAKEFOURCC 'P' '0' '1' '6'
      · subst h3; simp; decide
      · simp [h1, h2, h3, eq_comm]

/-- C7. When the last decoded picture has a null `opaque` reference or a null
`data[0]`, or a width or height that is not positive, or when no codec context is
bound, `frame()` returns the empty frame and issues no driver call. -/
theorem frame_unready_gives_empty (drv : Driver) (d : VideoDecoderD3D11Private)
    (h : d.frame.opaqueRef = NULL ∨ d.frame.data 0 = NULL ∨ d.frame.width ≤ 0 ∨
      d.frame.height ≤ 0 ∨ d.codec_ctx = NULL) :
    frame drv d = (FrameOutcome.returned VideoFrame.invalid, []) := by
  unfold frame
  by_cases h1 : d.frame.opaqueRef = NULL ∨ d.frame.data 0 = NULL
  · rw [if_pos h1]
  · rw [if_neg h1]
    have h2 : d.frame.width ≤ 0 ∨ d.frame.height ≤ 0 ∨ d.codec_ctx = NULL := by
      rcases h with h | h | h | h | h
      · exact absurd (Or.inl h) h1
      · exact absurd (Or.inr h) h1
      · exact Or.inl h
      · exact Or.inr (Or.inl h)
      · exact Or.inr (Or.inr h)
    rw [if_pos h2]

/-- C7, at a concrete input: a picture without backing data gives the empty frame
and no driver call. -/
theorem frame_unready_gives_empty_witness :
    decoderWithoutData.frame.data 0 = NULL ∧
    frame sampleDriver decoderWithoutData = (FrameOutcome.returned VideoFrame.invalid, []) :=
  ⟨rfl, frame_unready_gives_empty sampleDriver decoderWithoutData (Or.inr (Or.inl rfl))⟩

/-- C6, the failing input. The picture passes the checks of lines 150-153
(`opaque` and `data[0]` non-null, 1920x1080, codec context bound) and its view
`data[3]` is null: `frame()` calls `surface->GetResource` (line 157) before the
test `!surface` (line 158), so the run ends in a null dereference, not in an
empty frame. -/
theorem frame_null_view_dereferences :
    decoderWithNullView.frame.opaqueRef ≠ NULL ∧
    decoderWithNullView.frame.data 0 ≠ NULL ∧
    0 < decoderWithNullView.frame.width ∧
    0 < decoderWithNullView.frame.height ∧
    decoderWithNullView.codec_ctx ≠ NULL ∧
    decoderWithNullView.frame.data 3 = NULL ∧
    frame sampleDriver decoderWithNullView = (FrameOutcome.nullDereference, []) := by
  refine ⟨by decide, by decide, by decide, by decide, by decide, rfl, ?_⟩
  decide

/-- The part of C6 that the code meets: with a non-null view that resolves to no
texture, `frame()` returns the empty frame after the one `GetResource` call, with
no copy and no map. -/
theorem frame_no_texture_gives_empty (drv : Driver) (d : VideoDecoderD3D11Private)
    (h1 : d.frame.opaqueRef ≠ NULL) (h2 : d.frame.data 0 ≠ NULL)
    (h3 : 0 < d.frame.width) (h4 : 0 < d.frame.height) (h5 : d.codec_ctx ≠ NULL)
    (hview : d.frame.data 3 ≠ NULL)
    (htex : drv.OutputView_GetResource (d.frame.data 3) = NULL) :
    frame drv d =
      (FrameOutcome.returned VideoFrame.invalid, [DriverCall.GetResource (d.frame.data 3)]) := by
  unfold frame
  have e1 : ¬ (d.frame.opaqueRef = NULL ∨ d.frame.data 0 = NULL) := by
    rintro (h | h)
    · exact h1 h
    · exact h2 h
  have e2 : ¬ (d.frame.width ≤ 0 ∨ d.frame.height ≤ 0 ∨ d.codec_ctx = NULL) := by
    rintro (h | h | h)
    · omega
    · omega
    · exact h5 h
  rw [if_neg e1, if_neg e2]
  simp only [if_neg hview, htex, or_true, if_true]

/-- C9. After `setupAVVAContext` the workaround field is the prior field with the
Intel ClearVideo flag added (bit 1 set, every other bit as before) when the
decode profile is the Intel clear-video one, and is zero for any other
profile; the context bound to `avctx` shows the same field. -/
theorem setupAVVAContext_workaround (isIntelClearVideo : GUID → Bool)
    (d : VideoDecoderD3D11Private) (avctx : AVCodecContext) :
    (setupAVVAContext isIntelClearVideo d avctx).1.hw.workaround =
      (if isIntelClearVideo d.codec_guid then
        d.hw.workaround ||| FF_DXVA2_WORKAROUND_INTEL_CLEARVIDEO
       else 0) ∧
    (∀ i : Nat, ((setupAVVAContext isIntelClearVideo d avctx).1.hw.workaround).testBit i =
      (if isIntelClearVideo d.codec_guid then (d.hw.workaround.testBit i || decide (i = 1))
       else false)) ∧
    (setupAVVAContext isIntelClearVideo d avctx).2.hwaccel_context =
      some (setupAVVAContext isIntelClearVideo d avctx).1.hw := by
  have hbit : ∀ i : Nat, Nat.testBit 2 i = decide (i = 1) := by
    intro i
    have h := @Nat.testBit_two_pow 1 i
    simp only [pow_one] at h
    rw [h]
    by_cases hi : i = 1
    · simp [hi]
    · have hi2 : ¬ (1 = i) := fun e => hi e.symm
      simp [hi, hi2]
  cases hq : isIntelClearVideo d.codec_guid
  · simp [setupAVVAContext, hq]
  · refine ⟨by simp [setupAVVAContext, hq], ?_, by simp [setupAVVAContext, hq]⟩
    intro i
    simp [setupAVVAContext, hq, FF_DXVA2_WORKAROUND_INTEL_CLEARVIDEO, Nat.testBit_lor, hbit]

/-- C10. `destroyDevice` is total, leaves the four device handles null and the rest
of the decoder as it was, releases exactly the handles that were not null, once
each, in the order video device, video context, immediate context, device; a
second `destroyDevice` releases nothing and changes nothing. -/
theorem destroyDevice_releases_once (d : VideoDecoderD3D11Private) :
    (destroyDevice d).1 =
      { d with d3dviddev := NULL, d3dvidctx := NULL, d3dctx := NULL, d3ddev := NULL } ∧
    (destroyDevice d).2 =
      ([d.d3dviddev, d.d3dvidctx, d.d3dctx, d.d3ddev].filter (fun p => p != NULL)).map
        DriverCall.Release ∧
    destroyDevice (destroyDevice d).1 = ((destroyDevice d).1, []) := by
  have hstate : (destroyDevice d).1 =
      { d with d3dviddev := NULL, d3dvidctx := NULL, d3dctx := NULL, d3ddev := NULL } := by
    unfold destroyDevice SafeRelease
    by_cases a : d.d3dviddev = NULL <;> by_cases b : d.d3dvidctx = NULL <;>
      by_cases c : d.d3dctx = NULL <;> by_cases e : d.d3ddev = NULL <;>
      simp [a, b, c, e]
  refine ⟨hstate, ?_, ?_⟩
  · unfold destroyDevice SafeRelease
    by_cases a : d.d3dviddev = NULL <;> by_cases b : d.d3dvidctx = NULL <;>
      by_cases c : d.d3dctx = NULL <;> by_cases e : d.d3ddev = NULL <;>
      simp [a, b, c, e, List.filter_cons]
  · rw [hstate]
    simp [destroyDevice, SafeRelease]

/-- The loop of `fourccFor`, entered with `is_supported == FALSE`, stops at the
first entry whose check fails or reports "supported". -/
theorem fourccFor_loop_eq (drv : Driver) (guid : GUID) (table : List dxgi_fcc)
    (log : List DriverCall) :
    (fourccFor.loop drv guid FALSE table log).1 =
      (match table.find? (fun f => drv.checkFails guid f.dxgi || drv.reportsSupported guid f.dxgi) with
       | none => 0
       | some f => if drv.checkFails guid f.dxgi then 0 else f.fourcc) := by
  induction table generalizing log with
  | nil => simp [fourccFor.loop]
  | cons f rest ih =>
    unfold fourccFor.loop DX_ENSURE.returns
    by_cases hf : FAILED (drv.CheckVideoDecoderFormat guid f.dxgi).1 = true
    · simp [Driver.checkFails, hf, List.find?_cons]
    · by_cases hs : (drv.CheckVideoDecoderFormat guid f.dxgi).2.getD FALSE = 0
      · have hrep : drv.reportsSupported guid f.dxgi = false := by
          simp [Driver.reportsSupported, hs]
        have hcf : drv.checkFails guid f.dxgi = false := by
          simpa [Driver.checkFails] using hf
        simp only [hf, hs, List.find?_cons, hrep, hcf, Bool.or_false]
        simpa using ih _
      · have hrep : drv.reportsSupported guid f.dxgi = true := by
          simp [Driver.reportsSupported, hs]
        have hcf : drv.checkFails guid f.dxgi = false := by
          simpa [Driver.checkFails] using hf
        simp [hf, hs, List.find?_cons, hrep, hcf]

/-- C2, as stated, fails: the check for NV12 fails, P010 is the first table entry
reported as supported, and `fourccFor` returns `0`, not the code of P010. -/
theorem fourccFor_first_supported_counterexample :
    failingFirstCheckDriver.checkFails 0 DXGI_FORMAT_NV12 = true ∧
    dxgi_formats.find? (fun f => failingFirstCheckDriver.reportsSupported 0 f.dxgi) =
      some ⟨MAKEFOURCC 'P' '0' '1' '0', DXGI_FORMAT_P010⟩ ∧
    (fourccFor failingFirstCheckDriver 0).1 = 0 ∧
    ¬ ((fourccFor failingFirstCheckDriver 0).1 =
        (match dxgi_formats.find?
            (fun f => failingFirstCheckDriver.reportsSupported 0 f.dxgi) with
         | none => 0
         | some f => f.fourcc)) := by
  refine ⟨by decide, by decide, by decide, by decide⟩

/-- C2, amended. `fourccFor` goes through the table in order (NV12, P010, P016) and
stops at the first entry whose format-support check fails or reports "supported";
it returns that entry's fourcc when the check succeeded and `0` when the check
failed or when no entry stops the loop. A non-zero result is the fourcc of a
table entry whose check, for that profile and format, succeeded and reported
"supported". -/
theorem fourccFor_first_success_or_failure (drv : Driver) (guid : GUID) :
    (fourccFor drv guid).1 =
      (match dxgi_formats.find?
          (fun f => drv.checkFails guid f.dxgi || drv.reportsSupported guid f.dxgi) with
       | none => 0
       | some f => if drv.checkFails guid f.dxgi then 0 else f.fourcc) ∧
    ((fourccFor drv guid).1 ≠ 0 →
      ∃ f ∈ dxgi_formats, f.fourcc = (fourccFor drv guid).1 ∧
        drv.checkFails guid f.dxgi = false ∧ drv.reportsSupported guid f.dxgi = true) := by
  have hmain := fourccFor_loop_eq drv guid dxgi_formats []
  refine ⟨hmain, ?_⟩
  intro hne
  unfold fourccFor at hne ⊢
  rw [hmain] at hne ⊢
  cases hfind : dxgi_formats.find?
      (fun f => drv.checkFails guid f.dxgi || drv.reportsSupported guid f.dxgi) with
  | none => simp [hfind] at hne
  | some f =>
    have hmem := List.mem_of_find?_eq_some hfind
    have hstop := List.find?_some hfind
    simp only [hfind] at hne ⊢
    by_cases hcf : drv.checkFails guid f.dxgi = true
    · simp [hcf] at hne
    · have hcf2 : drv.checkFails guid f.dxgi = false := by simpa using hcf
      refine ⟨f, hmem, ?_, hcf2, ?_⟩
      · simp [hcf2]
      · simpa [hcf2] using hstop

/-- C2, amended, at a concrete input: the sample driver supports NV12, and the
non-zero result is the code of NV12. -/
theorem fourccFor_first_success_or_failure_witness :
    (fourccFor sampleDriver 0).1 ≠ 0 ∧
    ∃ f ∈ dxgi_formats, f.fourcc = (fourccFor sampleDriver 0).1 ∧
      sampleDriver.checkFails 0 f.dxgi = false ∧
      sampleDriver.reportsSupported 0 f.dxgi = true :=
  ⟨by decide, (fourccFor_first_success_or_failure sampleDriver 0).2 (by decide)⟩


/-! ### `createDecoder` -/

/-- The view loop keeps the length of the surfaces array. -/
theorem viewLoop_length (drv : Driver) (guid : GUID) (tex : Ptr) (k i : Nat)
    (surf : List (Option d3d11_surface_t)) (log : List DriverCall) :
    (createDecoder.viewLoop drv guid tex k i surf log).2.1.length = surf.length := by
  induction k generalizing i surf log with
  | zero => simp [createDecoder.viewLoop]
  | succ k ih =>
    unfold createDecoder.viewLoop DX_ENSURE.returns
    by_cases hf : FAILED (drv.CreateVideoDecoderOutputView tex (createDecoder.viewDesc guid i)).1 = true
    · simp [hf]
    · simp [hf, ih]

/-- The view loop adds only `CreateVideoDecoderOutputView` calls to the log. -/
theorem viewLoop_filterMap {β : Type} (f : DriverCall → Option β)
    (hf : ∀ tex desc, f (DriverCall.CreateVideoDecoderOutputView tex desc) = none)
    (drv : Driver) (guid : GUID) (tex : Ptr) (k i : Nat)
    (surf : List (Option d3d11_surface_t)) (log : List DriverCall) :
    (createDecoder.viewLoop drv guid tex k i surf log).2.2.filterMap f = log.filterMap f := by
  induction k generalizing i surf log with
  | zero => simp [createDecoder.viewLoop]
  | succ k ih =>
    unfold createDecoder.viewLoop DX_ENSURE.returns
    by_cases hc : FAILED (drv.CreateVideoDecoderOutputView tex (createDecoder.viewDesc guid i)).1 = true
    · simp [hc, List.filterMap_append, hf]
    · simp [hc, ih, List.filterMap_append, hf]

/-- The configuration loop adds only `GetVideoDecoderConfig` calls to the log. -/
theorem configLoop_filterMap {β : Type} (f : DriverCall → Option β)
    (hf : ∀ desc i, f (DriverCall.GetVideoDecoderConfig desc i) = none)
    (drv : Driver) (desc : D3D11_VIDEO_DECODER_DESC) (k i : Nat)
    (cfg_list : List D3D11_VIDEO_DECODER_CONFIG) (log : List DriverCall) :
    (createDecoder.configLoop drv desc k i cfg_list log).2.filterMap f = log.filterMap f := by
  induction k generalizing i cfg_list log with
  | zero => simp [createDecoder.configLoop]
  | succ k ih =>
    unfold createDecoder.configLoop DX_ENSURE.returns
    by_cases hc : FAILED (drv.GetVideoDecoderConfig desc i).1 = true
    · simp [hc, List.filterMap_append, hf]
    · simp [hc, ih, List.filterMap_append, hf]

/-- `viewLoop_filterMap`, for a named result. -/
theorem viewLoop_eq_filterMap {β : Type} (f : DriverCall → Option β)
    (hf : ∀ tex desc, f (DriverCall.CreateVideoDecoderOutputView tex desc) = none)
    {drv : Driver} {guid : GUID} {tex : Ptr} {k i : Nat}
    {surf surf2 : List (Option d3d11_surface_t)} {log log2 : List DriverCall} {ok : Bool}
    (h : createDecoder.viewLoop drv guid tex k i surf log = (ok, surf2, log2)) :
    log2.filterMap f = log.filterMap f := by
  have key := viewLoop_filterMap f hf drv guid tex k i surf log
  rw [h] at key
  exact key

/-- `viewLoop_length`, for a named result. -/
theorem viewLoop_eq_length {drv : Driver} {guid : GUID} {tex : Ptr} {k i : Nat}
    {surf surf2 : List (Option d3d11_surface_t)} {log log2 : List DriverCall} {ok : Bool}
    (h : createDecoder.viewLoop drv guid tex k i surf log = (ok, surf2, log2)) :
    surf2.length = surf.length := by
  have key := viewLoop_length drv guid tex k i surf log
  rw [h] at key
  exact key

/-- `configLoop_filterMap`, for a named result. -/
theorem configLoop_eq_filterMap {β : Type} (f : DriverCall → Option β)
    (hf : ∀ desc i, f (DriverCall.GetVideoDecoderConfig desc i) = none)
    {drv : Driver} {desc : D3D11_VIDEO_DECODER_DESC} {k i : Nat}
    {cfg_list : List D3D11_VIDEO_DECODER_CONFIG} {log log2 : List DriverCall}
    {res : Option (List D3D11_VIDEO_DECODER_CONFIG)}
    (h : createDecoder.configLoop drv desc k i cfg_list log = (res, log2)) :
    log2.filterMap f = log.filterMap f := by
  have key := configLoop_filterMap f hf drv desc k i cfg_list log
  rw [h] at key
  exact key

/-- Whatever its outcome, the view loop leaves at each index the prior entry or the surface of the view created for that slice. -/
theorem viewLoop_any_get (drv : Driver) (guid : GUID) (tex : Ptr) (k i : Nat)
    (surf : List (Option d3d11_surface_t)) (log : List DriverCall) (j : Nat) :
    (createDecoder.viewLoop drv guid tex k i surf log).2.1[j]? = surf[j]? ∨
    (createDecoder.viewLoop drv guid tex k i surf log).2.1[j]? =
      some (some ⟨(drv.CreateVideoDecoderOutputView tex
        (createDecoder.viewDesc guid j)).2.getD NULL⟩) := by
  induction k generalizing i surf log with
  | zero => left; simp [createDecoder.viewLoop]
  | succ k ih =>
    unfold createDecoder.viewLoop DX_ENSURE.returns
    by_cases hc : FAILED (drv.CreateVideoDecoderOutputView tex (createDecoder.viewDesc guid i)).1 = true
    · left; simp [hc]
    · simp only [hc, Bool.false_eq_true, if_false]
      rcases ih (i + 1) (surf.set i (some (d3d11_surface_t.new.setSurface
        ((drv.CreateVideoDecoderOutputView tex (createDecoder.viewDesc guid i)).2.getD NULL))))
        (log ++ [DriverCall.CreateVideoDecoderOutputView tex (createDecoder.viewDesc guid i)])
        with h | h
      · rw [h, List.getElem?_set]
        by_cases hij : i = j
        · subst hij
          by_cases hlen : i < surf.length
          · right; simp [hlen, d3d11_surface_t.setSurface]
          · left
            have h3 : surf[i]? = none := by
              apply List.getElem?_eq_none; omega
            simp [hlen, h3]
        · left; simp [hij]
      · right; exact h

/-- `viewLoop_any_get`, for a named result. -/
theorem viewLoop_eq_any_get {drv : Driver} {guid : GUID} {tex : Ptr} {k i : Nat}
    {surf surf2 : List (Option d3d11_surface_t)} {log log2 : List DriverCall} {ok : Bool}
    (h : createDecoder.viewLoop drv guid tex k i surf log = (ok, surf2, log2)) (j : Nat) :
    surf2[j]? = surf[j]? ∨
    surf2[j]? = some (some ⟨(drv.CreateVideoDecoderOutputView tex
        (createDecoder.viewDesc guid j)).2.getD NULL⟩) := by
  have key := viewLoop_any_get drv guid tex k i surf log j
  rw [h] at key
  exact key

/-- A `CreateVideoDecoder` call of the log shows among its session requests. -/
theorem mem_filterMap_decoderRequest {log : List DriverCall} {desc : D3D11_VIDEO_DECODER_DESC}
    {cfg : D3D11_VIDEO_DECODER_CONFIG} (h : DriverCall.CreateVideoDecoder desc cfg ∈ log) :
    (desc, cfg) ∈ log.filterMap DriverCall.decoderRequest :=
  List.mem_filterMap.mpr ⟨_, h, rfl⟩

/-- A log with no session request holds no `CreateVideoDecoder` call. -/
theorem not_mem_of_filterMap_decoderRequest (log : List DriverCall)
    (h : log.filterMap DriverCall.decoderRequest = []) (desc : D3D11_VIDEO_DECODER_DESC)
    (cfg : D3D11_VIDEO_DECODER_CONFIG) : DriverCall.CreateVideoDecoder desc cfg ∉ log := by
  intro hmem
  have : (desc, cfg) ∈ log.filterMap DriverCall.decoderRequest :=
    List.mem_filterMap.mpr ⟨_, hmem, rfl⟩
  rw [h] at this
  exact absurd this (List.not_mem_nil _)

/-- C4. When the driver reports zero decode configurations for the decoder
description of lines 310-315 (and `SelectConfig` makes no selection from an empty
list), `createDecoder` returns failure, never calls `CreateVideoDecoder` and leaves
`d3ddec` as it was. -/
theorem createDecoder_zero_configs (drv : Driver) (aligned : Int → Int)
    (SelectConfig : AVCodecID → List D3D11_VIDEO_DECODER_CONFIG → Nat →
      D3D11_VIDEO_DECODER_CONFIG → Int × D3D11_VIDEO_DECODER_CONFIG)
    (d : VideoDecoderD3D11Private) (codec_id : AVCodecID) (w h : Int)
    (surf : List (Option d3d11_surface_t))
    (hsel : SelectConfigRejectsEmpty SelectConfig)
    (hzero : (drv.GetVideoDecoderConfigCount
        { Guid := d.codec_guid, SampleWidth := toUINT w, SampleHeight := toUINT h,
          OutputFormat := fourccToDXGI d.format_fcc }).2 = 0) :
    (createDecoder drv aligned SelectConfig d codec_id w h surf).ret = false ∧
    (createDecoder drv aligned SelectConfig d codec_id w h surf).d.d3ddec = d.d3ddec ∧
    ∀ desc cfg, DriverCall.CreateVideoDecoder desc cfg ∉
      (createDecoder drv aligned SelectConfig d codec_id w h surf).log := by
  have hlog : (createDecoder drv aligned SelectConfig d codec_id w h surf).ret = false ∧
      (createDecoder drv aligned SelectConfig d codec_id w h surf).d.d3ddec = d.d3ddec ∧
      (createDecoder drv aligned SelectConfig d codec_id w h surf).log.filterMap
        DriverCall.decoderRequest = [] := by
    unfold createDecoder DX_ENSURE.returns
    simp only []
    split
    · exact ⟨rfl, rfl, rfl⟩
    · split
      · exact ⟨rfl, rfl, rfl⟩
      · split
        · rename_i hv
          have hv2 := viewLoop_eq_filterMap DriverCall.decoderRequest (fun _ _ => rfl) hv
          exact ⟨rfl, rfl, hv2.trans rfl⟩
        · rename_i hv
          have hv2 := viewLoop_eq_filterMap DriverCall.decoderRequest (fun _ _ => rfl) hv
          split
          · refine ⟨rfl, rfl, ?_⟩
            show List.filterMap _ (_ ++ _) = []
            rw [List.filterMap_append, hv2]
            rfl
          · have hz : (drv.GetVideoDecoderConfigCount
                (createDecoder.decoderDesc d.codec_guid d.format_fcc w h)).2 = 0 := hzero
            simp only [hz]
            simp only [createDecoder.configLoop, List.replicate]
            have hs := hsel codec_id d.cfg
            rw [if_pos hs]
            refine ⟨rfl, rfl, ?_⟩
            show List.filterMap _ (_ ++ _) = []
            rw [List.filterMap_append, hv2]
            rfl
  exact ⟨hlog.1, hlog.2.1, not_mem_of_filterMap_decoderRequest _ hlog.2.2⟩

/-- C4, at a concrete input: the driver reports zero configurations. -/
theorem createDecoder_zero_configs_witness :
    SelectConfigRejectsEmpty sampleSelectConfig ∧
    (zeroConfigDriver.GetVideoDecoderConfigCount
        { Guid := sampleDecoder.codec_guid, SampleWidth := toUINT 1920,
          SampleHeight := toUINT 1080,
          OutputFormat := fourccToDXGI sampleDecoder.format_fcc }).2 = 0 ∧
    (createDecoder zeroConfigDriver aligned16 sampleSelectConfig sampleDecoder 27 1920 1080
      [none, none]).ret = false ∧
    (createDecoder zeroConfigDriver aligned16 sampleSelectConfig sampleDecoder 27 1920 1080
      [none, none]).d.d3ddec = sampleDecoder.d3ddec ∧
    ∀ desc cfg, DriverCall.CreateVideoDecoder desc cfg ∉
      (createDecoder zeroConfigDriver aligned16 sampleSelectConfig sampleDecoder 27 1920 1080
        [none, none]).log :=
  ⟨fun _ _ => le_refl _, rfl,
    createDecoder_zero_configs zeroConfigDriver aligned16 sampleSelectConfig sampleDecoder 27
      1920 1080 [none, none] (fun _ _ => le_refl _) rfl⟩

/-- C5, amended. When `createDecoder` returns failure, no session has been created:
every `CreateVideoDecoder` call of the run failed, and `d3ddec` is as before
unless that call was made. The surfaces array keeps its length. A failure of the
pool texture leaves the decoder and the surfaces array as they were. After the
pool texture is created, `texture_cpu` is what the staging request left in it
and each entry of the surfaces array is the prior entry or the surface created
for its slice: what earlier steps stored is not undone. Of the decoder, only
`texture_cpu`, `cfg` and `d3ddec` can differ from before, and `cfg` is as before
or what `SelectConfig` left in it. -/
theorem createDecoder_failure_effects (drv : Driver) (aligned : Int → Int)
    (SelectConfig : AVCodecID → List D3D11_VIDEO_DECODER_CONFIG → Nat →
      D3D11_VIDEO_DECODER_CONFIG → Int × D3D11_VIDEO_DECODER_CONFIG)
    (d : VideoDecoderD3D11Private) (codec_id : AVCodecID) (w h : Int)
    (surf : List (Option d3d11_surface_t))
    (hfail : (createDecoder drv aligned SelectConfig d codec_id w h surf).ret = false) :
    (createDecoder drv aligned SelectConfig d codec_id w h surf).surf.length = surf.length ∧
    (∀ desc cfg, DriverCall.CreateVideoDecoder desc cfg ∈
        (createDecoder drv aligned SelectConfig d codec_id w h surf).log →
      FAILED (drv.CreateVideoDecoder desc cfg).1 = true) ∧
    ((∀ desc cfg, DriverCall.CreateVideoDecoder desc cfg ∉
        (createDecoder drv aligned SelectConfig d codec_id w h surf).log) →
      (createDecoder drv aligned SelectConfig d codec_id w h surf).d.d3ddec = d.d3ddec) ∧
    (FAILED (drv.CreateTexture2D
        (createDecoder.poolDesc aligned d.format_fcc w h surf.length)).1 = true →
      (createDecoder drv aligned SelectConfig d codec_id w h surf).d = d ∧
      (createDecoder drv aligned SelectConfig d codec_id w h surf).surf = surf) ∧
    (FAILED (drv.CreateTexture2D
        (createDecoder.poolDesc aligned d.format_fcc w h surf.length)).1 = false →
      (createDecoder drv aligned SelectConfig d codec_id w h surf).d.texture_cpu =
        (drv.CreateTexture2D (createDecoder.stagingDesc (drv.Texture2D_GetDesc
          ((drv.CreateTexture2D
            (createDecoder.poolDesc aligned d.format_fcc w h surf.length)).2.getD NULL)))).2.getD
          d.texture_cpu) ∧
    (∀ i : Nat, (createDecoder drv aligned SelectConfig d codec_id w h surf).surf[i]? = surf[i]? ∨
      (createDecoder drv aligned SelectConfig d codec_id w h surf).surf[i]? =
        some (some ⟨(drv.CreateVideoDecoderOutputView
          ((drv.CreateTexture2D
            (createDecoder.poolDesc aligned d.format_fcc w h surf.length)).2.getD NULL)
          { DecodeProfile := d.codec_guid, ViewDimension := D3D11_VDOV_DIMENSION_TEXTURE2D,
            Texture2D_ArraySlice := i }).2.getD NULL⟩)) ∧
    (createDecoder drv aligned SelectConfig d codec_id w h surf).d =
      { d with
        texture_cpu := (createDecoder drv aligned SelectConfig d codec_id w h surf).d.texture_cpu
        cfg := (createDecoder drv aligned SelectConfig d codec_id w h surf).d.cfg
        d3ddec := (createDecoder drv aligned SelectConfig d codec_id w h surf).d.d3ddec } ∧
    ((createDecoder drv aligned SelectConfig d codec_id w h surf).d.cfg = d.cfg ∨
      ∃ cfg_list, (createDecoder drv aligned SelectConfig d codec_id w h surf).d.cfg =
        (SelectConfig codec_id cfg_list
          (drv.GetVideoDecoderConfigCount
            { Guid := d.codec_guid, SampleWidth := toUINT w, SampleHeight := toUINT h,
              OutputFormat := fourccToDXGI d.format_fcc }).2 d.cfg).2) := by
  -- a log without session request gives the two statements about `CreateVideoDecoder`
  have nolog : ∀ (log : List DriverCall) (x y : Ptr),
      log.filterMap DriverCall.decoderRequest = [] →
      x = y →
      (∀ desc cfg, DriverCall.CreateVideoDecoder desc cfg ∈ log →
        FAILED (drv.CreateVideoDecoder desc cfg).1 = true) ∧
      ((∀ desc cfg, DriverCall.CreateVideoDecoder desc cfg ∉ log) → x = y) := by
    intro log x y hl hxy
    refine ⟨?_, fun _ => hxy⟩
    intro desc cfg hmem
    have := mem_filterMap_decoderRequest hmem
    rw [hl] at this
    exact absurd this (List.not_mem_nil _)
  revert hfail
  unfold createDecoder DX_ENSURE.returns
  simp only []
  split
  · rename_i h1
    intro _
    obtain ⟨n1, n2⟩ := nolog [DriverCall.CreateTexture2D
      (createDecoder.poolDesc aligned d.format_fcc w h surf.length)] d.d3ddec d.d3ddec rfl rfl
    refine ⟨rfl, n1, n2, ?_, ?_, ?_, rfl, Or.inl rfl⟩
    · intro _
      exact ⟨rfl, rfl⟩
    · intro hp
      rw [hp] at h1
      exact absurd h1 (by simp)
    · intro i
      exact Or.inl rfl
  · rename_i h1
    split
    · intro _
      obtain ⟨n1, n2⟩ := nolog _ d.d3ddec d.d3ddec
        (rfl : List.filterMap DriverCall.decoderRequest
          ([DriverCall.CreateTexture2D _] ++ [DriverCall.Texture2D_GetDesc _] ++
            [DriverCall.CreateTexture2D _]) = []) rfl
      refine ⟨rfl, n1, n2, fun hp => absurd hp h1, fun _ => rfl, ?_, rfl, Or.inl rfl⟩
      intro i
      exact Or.inl rfl
    · rename_i h2
      split
      · rename_i hv
        intro _
        have hv2 := viewLoop_eq_filterMap DriverCall.decoderRequest (fun _ _ => rfl) hv
        obtain ⟨n1, n2⟩ := nolog _ d.d3ddec d.d3ddec (hv2.trans rfl) rfl
        refine ⟨viewLoop_eq_length hv, n1, n2, fun hp => absurd hp h1, fun _ => rfl, ?_, rfl, Or.inl rfl⟩
        intro i
        exact viewLoop_eq_any_get hv i
      · rename_i x2 surf2 log2 hv
        have hv2 : List.filterMap DriverCall.decoderRequest log2 = [] :=
          (viewLoop_eq_filterMap DriverCall.decoderRequest (fun _ _ => rfl) hv).trans rfl
        split
        · intro _
          obtain ⟨n1, n2⟩ := nolog (log2 ++ [DriverCall.GetVideoDecoderConfigCount
              (createDecoder.decoderDesc d.codec_guid d.format_fcc w h)]) d.d3ddec d.d3ddec
            (by rw [List.filterMap_append, hv2]; rfl) rfl
          refine ⟨viewLoop_eq_length hv, n1, n2, fun hp => absurd hp h1, fun _ => rfl, ?_, rfl, Or.inl rfl⟩
          intro i
          exact viewLoop_eq_any_get hv i
        · split
          · rename_i x3 log3 hc
            intro _
            have hc2 : List.filterMap DriverCall.decoderRequest log3 = [] := by
              rw [configLoop_eq_filterMap DriverCall.decoderRequest (fun _ _ => rfl) hc,
                List.filterMap_append, hv2]
              rfl
            obtain ⟨n1, n2⟩ := nolog _ d.d3ddec d.d3ddec hc2 rfl
            refine ⟨viewLoop_eq_length hv, n1, n2, fun hp => absurd hp h1, fun _ => rfl, ?_, rfl, Or.inl rfl⟩
            intro i
            exact viewLoop_eq_any_get hv i
          · rename_i x3 cfg_list log3 hc
            have hc2 : List.filterMap DriverCall.decoderRequest log3 = [] := by
              rw [configLoop_eq_filterMap DriverCall.decoderRequest (fun _ _ => rfl) hc,
                List.filterMap_append, hv2]
              rfl
            split
            · intro _
              obtain ⟨n1, n2⟩ := nolog _ d.d3ddec d.d3ddec hc2 rfl
              refine ⟨viewLoop_eq_length hv, n1, n2, fun hp => absurd hp h1, fun _ => rfl, ?_, rfl, Or.inr ⟨cfg_list, rfl⟩⟩
              intro i
              exact viewLoop_eq_any_get hv i
            · split
              · rename_i h4
                intro _
                refine ⟨viewLoop_eq_length hv, ?_, ?_, fun hp => absurd hp h1, fun _ => rfl, ?_, rfl, Or.inr ⟨cfg_list, rfl⟩⟩
                · intro desc cfg hmem
                  have hm := mem_filterMap_decoderRequest hmem
                  rw [show ∀ (a b : List DriverCall), ((CreateDecoderResult.mk false _ _ (a ++ b)).log) = a ++ b from fun _ _ => rfl] at hm
                  rw [List.filterMap_append, hc2] at hm
                  simp only [List.nil_append, List.filterMap_cons, DriverCall.decoderRequest,
                    List.filterMap_nil, List.mem_singleton, Prod.mk.injEq] at hm
                  rw [hm.1, hm.2]
                  exact h4
                · intro hno
                  exact absurd (List.mem_append_right _ (List.mem_singleton_self _)) (hno _ _)
                · intro i
                  exact viewLoop_eq_any_get hv i
              · intro hfail
                exact absurd hfail (by simp)

/-- C5, as stated, fails: the view of slice `1` is rejected, `createDecoder`
returns failure, and the staging texture handle and the surfaces array are not
what they were before the call. -/
theorem createDecoder_failure_not_rolled_back :
    (createDecoder failingViewDriver aligned16 sampleSelectConfig sampleDecoder 27 1920 1080
      [none, none]).ret = false ∧
    sampleDecoder.texture_cpu = NULL ∧
    (createDecoder failingViewDriver aligned16 sampleSelectConfig sampleDecoder 27 1920 1080
      [none, none]).d.texture_cpu = 200 ∧
    (createDecoder failingViewDriver aligned16 sampleSelectConfig sampleDecoder 27 1920 1080
      [none, none]).surf = [some { view := 1000 }, none] ∧
    ¬ ((createDecoder failingViewDriver aligned16 sampleSelectConfig sampleDecoder 27 1920 1080
        [none, none]).d.texture_cpu = sampleDecoder.texture_cpu ∧
      (createDecoder failingViewDriver aligned16 sampleSelectConfig sampleDecoder 27 1920 1080
        [none, none]).surf = [none, none]) := by
  refine ⟨by decide, rfl, by decide, by decide, by decide⟩

/-- C5, amended, at a concrete input: the run in which the view of slice `1` is
rejected. -/
theorem createDecoder_failure_effects_witness :
    (createDecoder failingViewDriver aligned16 sampleSelectConfig sampleDecoder 27 1920 1080
      [none, none]).ret = false ∧
    (createDecoder failingViewDriver aligned16 sampleSelectConfig sampleDecoder 27 1920 1080
      [none, none]).surf.length = 2 ∧
    (∀ desc cfg, DriverCall.CreateVideoDecoder desc cfg ∈
        (createDecoder failingViewDriver aligned16 sampleSelectConfig sampleDecoder 27 1920 1080
          [none, none]).log →
      FAILED (failingViewDriver.CreateVideoDecoder desc cfg).1 = true) :=
  ⟨by decide,
    (createDecoder_failure_effects failingViewDriver aligned16 sampleSelectConfig sampleDecoder
      27 1920 1080 [none, none] (by decide)).1,
    (createDecoder_failure_effects failingViewDriver aligned16 sampleSelectConfig sampleDecoder
      27 1920 1080 [none, none] (by decide)).2.1⟩

/-- `toUINT` keeps a value that fits 32 bits. -/
theorem toUINT_of_fits (x : Int) (h0 : 0 ≤ x) (h1 : x < 4294967296) :
    Int.ofNat (toUINT x) = x := by
  unfold toUINT
  rw [Int.emod_eq_of_lt h0 h1]
  exact Int.toNat_of_nonneg h0

/-- The texture requests of a run of `createDecoder`: the pool request and, once the
pool texture is created, the staging request. -/
theorem createDecoder_textureRequests (drv : Driver) (aligned : Int → Int)
    (SelectConfig : AVCodecID → List D3D11_VIDEO_DECODER_CONFIG → Nat →
      D3D11_VIDEO_DECODER_CONFIG → Int × D3D11_VIDEO_DECODER_CONFIG)
    (d : VideoDecoderD3D11Private) (codec_id : AVCodecID) (w h : Int)
    (surf : List (Option d3d11_surface_t)) :
    (createDecoder drv aligned SelectConfig d codec_id w h surf).log.filterMap
        DriverCall.textureRequest =
      (if FAILED (drv.CreateTexture2D
          (createDecoder.poolDesc aligned d.format_fcc w h surf.length)).1 then
        [createDecoder.poolDesc aligned d.format_fcc w h surf.length]
       else
        [createDecoder.poolDesc aligned d.format_fcc w h surf.length,
         createDecoder.stagingDesc (drv.Texture2D_GetDesc ((drv.CreateTexture2D
          (createDecoder.poolDesc aligned d.format_fcc w h surf.length)).2.getD NULL))]) := by
  unfold createDecoder DX_ENSURE.returns
  simp only []
  split
  · rfl
  · split
    · rfl
    · split
      · rename_i hv
        exact (viewLoop_eq_filterMap DriverCall.textureRequest (fun _ _ => rfl) hv).trans rfl
      · rename_i hv
        have hv2 := viewLoop_eq_filterMap DriverCall.textureRequest (fun _ _ => rfl) hv
        split
        · show List.filterMap _ (_ ++ _) = _
          rw [List.filterMap_append, hv2]
          rfl
        · split
          · rename_i hc
            show List.filterMap _ _ = _
            rw [configLoop_eq_filterMap DriverCall.textureRequest (fun _ _ => rfl) hc,
              List.filterMap_append, hv2]
            rfl
          · rename_i hc
            have hc2 := configLoop_eq_filterMap DriverCall.textureRequest (fun _ _ => rfl) hc
            rw [List.filterMap_append, hv2] at hc2
            split
            · exact hc2.trans rfl
            · split
              · show List.filterMap _ (_ ++ _) = _
                rw [List.filterMap_append, hc2]
                rfl
              · show List.filterMap _ (_ ++ _) = _
                rw [List.filterMap_append, hc2]
                rfl


/-- C8. For every width, height and surface count, the first texture `createDecoder`
requests is the pool texture, with width `aligned(w)`, height `aligned(h)` (as
`UINT`, the same number whenever it fits 32 bits), `ArraySize` the surface count,
the format of `format_fcc`, default usage, decoder binding only and no CPU
access. The pool texture being created, the texture requests of the run are this
one and exactly one staging request, which keeps the width, height, format and
sample description `GetDesc` reports for the pool texture and has `ArraySize` 1,
staging usage, CPU-read access and no bind flags. With alignment to 16, a request
for 1920x1080 with 17 surfaces asks for a 1920x1088 pool texture of 17 layers and,
for the pool texture so created, a 1920x1088 staging texture of one layer. -/
theorem createDecoder_pool_and_staging_requests (drv : Driver) (aligned : Int → Int)
    (SelectConfig : AVCodecID → List D3D11_VIDEO_DECODER_CONFIG → Nat →
      D3D11_VIDEO_DECODER_CONFIG → Int × D3D11_VIDEO_DECODER_CONFIG)
    (d : VideoDecoderD3D11Private) (codec_id : AVCodecID) (w h : Int)
    (surf : List (Option d3d11_surface_t)) :
    ((createDecoder drv aligned SelectConfig d codec_id w h surf).log.filterMap
        DriverCall.textureRequest).head? =
      some (createDecoder.poolDesc aligned d.format_fcc w h surf.length) ∧
    (FAILED (drv.CreateTexture2D
        (createDecoder.poolDesc aligned d.format_fcc w h surf.length)).1 = false →
      (createDecoder drv aligned SelectConfig d codec_id w h surf).log.filterMap
          DriverCall.textureRequest =
        [createDecoder.poolDesc aligned d.format_fcc w h surf.length,
         createDecoder.stagingDesc (drv.Texture2D_GetDesc ((drv.CreateTexture2D
          (createDecoder.poolDesc aligned d.format_fcc w h surf.length)).2.getD NULL))] ∧
      (((createDecoder drv aligned SelectConfig d codec_id w h surf).log.filterMap
          DriverCall.textureRequest).filter
            (fun t => decide (t.Usage = D3D11_USAGE_STAGING))).length = 1) ∧
    createDecoder.poolDesc aligned d.format_fcc w h surf.length =
      { Width := toUINT (aligned w), Height := toUINT (aligned h), MipLevels := 1,
        ArraySize := surf.length, Format := fourccToDXGI d.format_fcc,
        SampleDesc_Count := 1, SampleDesc_Quality := 0, Usage := D3D11_USAGE_DEFAULT,
        BindFlags := D3D11_BIND_DECODER, CPUAccessFlags := 0, MiscFlags := 0 } ∧
    (∀ x : Int, 0 ≤ x → x < 4294967296 → Int.ofNat (toUINT x) = x) ∧
    (∀ t : D3D11_TEXTURE2D_DESC, createDecoder.stagingDesc t =
      { Width := t.Width, Height := t.Height, MipLevels := 1, ArraySize := 1,
        Format := t.Format, SampleDesc_Count := t.SampleDesc_Count,
        SampleDesc_Quality := t.SampleDesc_Quality, Usage := D3D11_USAGE_STAGING,
        BindFlags := 0, CPUAccessFlags := D3D11_CPU_ACCESS_READ, MiscFlags := 0 }) ∧
    (surf.length = 17 →
      createDecoder.poolDesc aligned16 d.format_fcc 1920 1080 surf.length =
        { Width := 1920, Height := 1088, MipLevels := 1, ArraySize := 17,
            Format := fourccToDXGI d.format_fcc, SampleDesc_Count := 1, SampleDesc_Quality := 0,
            Usage := D3D11_USAGE_DEFAULT, BindFlags := D3D11_BIND_DECODER,
            CPUAccessFlags := 0, MiscFlags := 0 } ∧
      (FAILED (drv.CreateTexture2D
          { Width := 1920, Height := 1088, MipLevels := 1, ArraySize := 17,
            Format := fourccToDXGI d.format_fcc, SampleDesc_Count := 1, SampleDesc_Quality := 0,
            Usage := D3D11_USAGE_DEFAULT, BindFlags := D3D11_BIND_DECODER,
            CPUAccessFlags := 0, MiscFlags := 0 }).1 = false →
        drv.Texture2D_GetDesc ((drv.CreateTexture2D
          { Width := 1920, Height := 1088, MipLevels := 1, ArraySize := 17,
            Format := fourccToDXGI d.format_fcc, SampleDesc_Count := 1, SampleDesc_Quality := 0,
            Usage := D3D11_USAGE_DEFAULT, BindFlags := D3D11_BIND_DECODER,
            CPUAccessFlags := 0, MiscFlags := 0 }).2.getD NULL) =
          { Width := 1920, Height := 1088, MipLevels := 1, ArraySize := 17,
            Format := fourccToDXGI d.format_fcc, SampleDesc_Count := 1, SampleDesc_Quality := 0,
            Usage := D3D11_USAGE_DEFAULT, BindFlags := D3D11_BIND_DECODER,
            CPUAccessFlags := 0, MiscFlags := 0 } →
        (createDecoder drv aligned16 SelectConfig d codec_id 1920 1080 surf).log.filterMap
            DriverCall.textureRequest =
          [{ Width := 1920, Height := 1088, MipLevels := 1, ArraySize := 17,
             Format := fourccToDXGI d.format_fcc, SampleDesc_Count := 1,
             SampleDesc_Quality := 0, Usage := D3D11_USAGE_DEFAULT,
             BindFlags := D3D11_BIND_DECODER, CPUAccessFlags := 0, MiscFlags := 0 },
           { Width := 1920, Height := 1088, MipLevels := 1, ArraySize := 1,
             Format := fourccToDXGI d.format_fcc, SampleDesc_Count := 1,
             SampleDesc_Quality := 0, Usage := D3D11_USAGE_STAGING, BindFlags := 0,
             CPUAccessFlags := D3D11_CPU_ACCESS_READ, MiscFlags := 0 }])) := by
  have hreq := createDecoder_textureRequests drv aligned SelectConfig d codec_id w h surf
  refine ⟨?_, ?_, rfl, toUINT_of_fits, fun _ => rfl, ?_⟩
  · rw [hreq]
    by_cases hp : FAILED (drv.CreateTexture2D
        (createDecoder.poolDesc aligned d.format_fcc w h surf.length)).1 = true
    · rw [if_pos hp]
      rfl
    · rw [if_neg hp]
      rfl
  · intro hp
    have hlist : (createDecoder drv aligned SelectConfig d codec_id w h surf).log.filterMap
          DriverCall.textureRequest =
        [createDecoder.poolDesc aligned d.format_fcc w h surf.length,
         createDecoder.stagingDesc (drv.Texture2D_GetDesc ((drv.CreateTexture2D
          (createDecoder.poolDesc aligned d.format_fcc w h surf.length)).2.getD NULL))] := by
      rw [hreq, hp]
      rfl
    refine ⟨hlist, ?_⟩
    rw [hlist]
    simp [List.filter, createDecoder.poolDesc, createDecoder.stagingDesc,
      D3D11_TEXTURE2D_DESC.zero, D3D11_USAGE_STAGING, D3D11_USAGE_DEFAULT]
  · intro hN
    have hP : createDecoder.poolDesc aligned16 d.format_fcc 1920 1080 surf.length =
        { Width := 1920, Height := 1088, MipLevels := 1, ArraySize := 17,
            Format := fourccToDXGI d.format_fcc, SampleDesc_Count := 1, SampleDesc_Quality := 0,
            Usage := D3D11_USAGE_DEFAULT, BindFlags := D3D11_BIND_DECODER,
            CPUAccessFlags := 0, MiscFlags := 0 } := by
      rw [hN]
      have e1 : toUINT (aligned16 1920) = 1920 := by decide
      have e2 : toUINT (aligned16 1080) = 1088 := by decide
      simp only [createDecoder.poolDesc, D3D11_TEXTURE2D_DESC.zero, e1, e2]
    refine ⟨hP, ?_⟩
    intro hok hdesc
    have key := createDecoder_textureRequests drv aligned16 SelectConfig d codec_id 1920 1080 surf
    rw [hP] at key
    rw [key, hok, hdesc]
    rfl

/-- C8, at a concrete input: the sample driver creates the pool texture; 1920x1080,
17 surfaces, NV12. The run makes exactly one staging request and its two texture
requests are the 1920x1088 pool texture of 17 layers and the 1920x1088 staging
texture of one layer. -/
theorem createDecoder_pool_and_staging_requests_witness :
    FAILED (sampleDriver.CreateTexture2D
      (createDecoder.poolDesc aligned16 sampleDecoder.format_fcc 1920 1080
        (List.replicate 17 (none : Option d3d11_surface_t)).length)).1 = false ∧
    (((createDecoder sampleDriver aligned16 sampleSelectConfig sampleDecoder 27 1920 1080
        (List.replicate 17 none)).log.filterMap DriverCall.textureRequest).filter
          (fun t => decide (t.Usage = D3D11_USAGE_STAGING))).length = 1 ∧
    (List.replicate 17 (none : Option d3d11_surface_t)).length = 17 ∧
    (createDecoder sampleDriver aligned16 sampleSelectConfig sampleDecoder 27 1920 1080
        (List.replicate 17 none)).log.filterMap DriverCall.textureRequest =
      [{ Width := 1920, Height := 1088, MipLevels := 1, ArraySize := 17,
         Format := DXGI_FORMAT_NV12, SampleDesc_Count := 1,
         SampleDesc_Quality := 0, Usage := D3D11_USAGE_DEFAULT,
         BindFlags := D3D11_BIND_DECODER, CPUAccessFlags := 0, MiscFlags := 0 },
       { Width := 1920, Height := 1088, MipLevels := 1, ArraySize := 1,
         Format := DXGI_FORMAT_NV12, SampleDesc_Count := 1,
         SampleDesc_Quality := 0, Usage := D3D11_USAGE_STAGING, BindFlags := 0,
         CPUAccessFlags := D3D11_CPU_ACCESS_READ, MiscFlags := 0 }] :=
  ⟨by decide,
    ((createDecoder_pool_and_staging_requests sampleDriver aligned16 sampleSelectConfig
      sampleDecoder 27 1920 1080 (List.replicate 17 none)).2.1 (by decide)).2,
    rfl,
    ((createDecoder_pool_and_staging_requests sampleDriver aligned16 sampleSelectConfig
      sampleDecoder 27 1920 1080 (List.replicate 17 none)).2.2.2.2.2 rfl).2
        (by decide) (by decide)⟩

end QtAV
